import Mathlib

/-!
A shallow embedding of cosmic-panel's panel-space engine, translated from
`cosmic-panel-bin/src/space/wrapper_space.rs` and
`cosmic-panel-bin/src/space_container/workspace.rs`.

Wayland protocol objects (surfaces, outputs, file descriptors) are identified
by numeric ids.  Protocol requests issued toward the host compositor or toward
embedded clients are recorded as `Action` values, in source order.  Fallible
FFI allocations (surface creation, region creation) are modelled as succeeding;
Rust panics reachable from the translated code are modelled explicitly.
Functions whose bodies live outside the provided sources (`close_popups`,
`constrain_dim`, `maximized_outputs`) are modelled from the specification and
say so in their doc comments.
-/

namespace CosmicPanel

abbrev SurfaceId := Nat

/-- Pointwise subtraction of logical points, `Point - Point` in smithay. -/
def psub (a b : Int × Int) : Int × Int := (a.1 - b.1, a.2 - b.2)

/-- `smithay::utils::Rectangle` with logical integer coordinates. -/
structure Rect where
  loc : Int × Int
  size : Int × Int
  deriving DecidableEq, Repr, Inhabited

/-- `xdg_shell_wrapper::space::WrapperPopupState` (the variants used by the
translated code, plus the spec's terminal `Closed`). -/
inductive WrapperPopupState
  | WaitConfigure
  | Rectangle (x y width height : Int)
  | Closed
  deriving DecidableEq, Repr, Inhabited

/-- `xdg_shell_wrapper::server_state::ServerPointerFocus`: one per-seat pointer
hover entry. -/
structure ServerPointerFocus where
  surface : SurfaceId
  seat_name : String
  c_pos : Int × Int
  s_pos : Int × Int
  deriving DecidableEq, Repr, Inhabited

/-- `xdg_shell_wrapper::space::WrapperPopup`: the panel's record of one relayed
popup.  Renderer-only fields (damage tracker, EGL surface) are omitted; the
fractional-scale and viewport objects are modelled by presence flags, and the
embedded surface's current xdg geometry origin (queried live through
`PopupKind::Xdg(..).geometry()` in Rust) is carried as `geo_loc`. -/
structure WrapperPopup where
  c_popup : SurfaceId
  s_surface : SurfaceId
  s_alive : Bool
  positioner_version : Nat
  state : Option WrapperPopupState
  dirty : Bool
  has_frame : Bool
  rectangle : Rect
  geo_loc : Int × Int
  fractional_scale : Bool
  viewport : Bool
  scale : Rat
  deriving DecidableEq, Repr

/-- A toplevel window element mapped into the inner smithay `Space`.  Toplevel
windows always expose a wl_surface, so `surface` is total. -/
structure Window where
  surface : SurfaceId
  loc : Int × Int
  bbox : Rect
  deriving DecidableEq, Repr, Inhabited

/-- One applet slot: the `(id, client, Option socket, Option security_context)`
tuples stored in `clients_left` / `clients_center` / `clients_right`. -/
structure PanelClient where
  id : String
  client : Nat
  socket : Option Nat
  security_context : Option Nat
  deriving DecidableEq, Repr, Inhabited

/-- `cosmic_panel_config::CosmicPanelOuput` (sic), the output selector. -/
inductive CosmicPanelOuput
  | Active
  | All
  | Name (n : String)
  deriving DecidableEq, Repr, Inhabited

/-- The wire value of `zwlr_layer_shell_v1::Layer` received from configuration;
the protocol enum is non-exhaustive, so an unrecognized value is possible. -/
inductive ZwlrLayer
  | Background
  | Bottom
  | Top
  | Overlay
  | Unknown (v : Nat)
  deriving DecidableEq, Repr, Inhabited

/-- `sctk::shell::wlr_layer::Layer`, the target of the layer translation. -/
inductive Layer
  | Background
  | Bottom
  | Top
  | Overlay
  deriving DecidableEq, Repr, Inhabited

/-- The `match` on `self.config().layer()` in `new_output`: any value other
than the four named layers is rejected. -/
def layerFromZwlr : ZwlrLayer → Option Layer
  | ZwlrLayer.Background => some Layer.Background
  | ZwlrLayer.Bottom => some Layer.Bottom
  | ZwlrLayer.Top => some Layer.Top
  | ZwlrLayer.Overlay => some Layer.Overlay
  | ZwlrLayer.Unknown _ => none

/-- `xdg_shell_wrapper_config::KeyboardInteractivity`. -/
inductive KeyboardInteractivity
  | None
  | Exclusive
  | OnDemand
  deriving DecidableEq, Repr, Inhabited

/-- `cosmic_panel_config::PanelAnchor`. -/
inductive PanelAnchor
  | Left
  | Right
  | Top
  | Bottom
  deriving DecidableEq, Repr, Inhabited

/-- The RON serialization of a `PanelAnchor`, as produced by
`ron::ser::to_string(&self.config.anchor)`. -/
def ronAnchor : PanelAnchor → String
  | PanelAnchor.Left => "Left"
  | PanelAnchor.Right => "Right"
  | PanelAnchor.Top => "Top"
  | PanelAnchor.Bottom => "Bottom"

/-- The slice of `CosmicPanelConfig` consumed by the translated functions.
`size` and `background` stand for the RON-serialized forms of the size and
background settings (their internal structure is never inspected here). -/
structure CosmicPanelConfig where
  name : String
  output : CosmicPanelOuput
  layer : ZwlrLayer
  anchor : PanelAnchor
  keyboard_interactivity : KeyboardInteractivity
  expand_to_edges : Bool
  plugins_left : Option (List String)
  plugins_center : Option (List String)
  plugins_right : Option (List String)
  size : String
  background : String
  deriving DecidableEq, Repr, Inhabited

/-- `sctk::output::OutputInfo` (name and location are the fields used). -/
structure OutputInfo where
  name : Option String
  location : Int × Int
  deriving DecidableEq, Repr, Inhabited

/-- `xdg_shell_wrapper::space::SpaceEvent` for the layer surface. -/
inductive SpaceEvent
  | WaitConfigure (first : Bool) (width height : Int)
  | Quit
  deriving DecidableEq, Repr, Inhabited

/-- A protocol request or cross-component call issued by the translated code,
recorded in source order. -/
inductive Action
  | applyPositioner (s : SurfaceId)
  | setPendingGeometry (s : SurfaceId) (w h : Int)
  | setWindowGeometry (c : SurfaceId) (x y w h : Int)
  | setInputRegion (c : SurfaceId)
  | getPopupOnLayer (c : SurfaceId)
  | viewportSetDestination (c : SurfaceId) (w h : Int)
  | setBufferScale (c : SurfaceId) (n : Int)
  | commit (c : SurfaceId)
  | reposition (c : SurfaceId) (token : Nat)
  | sendRepositioned (s : SurfaceId) (token : Nat)
  | sendConfigure (s : SurfaceId)
  | sendPopupDone (s : SurfaceId)
  | destroyHostSurface (c : SurfaceId)
  | mapOutput (o : Nat) (loc : Int × Int)
  | createLayerSurface (c : SurfaceId)
  | setKeyboardInteractivity (c : SurfaceId)
  | setSize (c : SurfaceId) (w h : Int)
  | setAnchor (c : SurfaceId)
  | applyMaximized (o : Nat)
  | applyToplevelChanges
  deriving DecidableEq, Repr

/-- The state of one `PanelSpace` (the fields touched by the translated
operations; renderer-only state is omitted). -/
structure PanelSpace where
  config : CosmicPanelConfig
  popups : List WrapperPopup
  layer : Option SurfaceId
  layer_fractional_scale : Bool
  layer_viewport : Bool
  space : List Window
  mapped_outputs : List (Nat × (Int × Int))
  scale : Rat
  output : Option (Nat × Nat × OutputInfo)
  s_display : Bool
  s_hovered_surface : List ServerPointerFocus
  s_focused_surface : List (SurfaceId × String)
  c_hovered_surface : List (SurfaceId × String)
  clients_left : List PanelClient
  clients_center : List PanelClient
  clients_right : List PanelClient
  input_region : Bool
  dimensions : Int × Int
  space_event : Option SpaceEvent
  is_dirty : Bool
  has_frame : Bool
  deriving DecidableEq, Repr

/-- `iter().enumerate().find(p)`: the first element satisfying `p`, with its
index. -/
def findWithIdx? {α : Type} (p : α → Bool) : List α → Option (Nat × α)
  | [] => none
  | a :: t => if p a then some (0, a) else (findWithIdx? p t).map (fun ib => (ib.1 + 1, ib.2))

/-- `Vec::swap_remove(i)`: replace element `i` with the last element and drop
the last. -/
def swapRemove {α : Type} (l : List α) (i : Nat) : List α :=
  match l.getLast? with
  | none => []
  | some a => (l.set i a).dropLast

/-- Modelled from the spec: `close_popups` (defined in `panel_space.rs`, which
is not under the provided sources) dismisses every open popup: each live
embedded popup surface is sent popup-done, every popup's host-side surface is
destroyed, and the popup list is emptied. -/
def close_popups (sp : PanelSpace) : PanelSpace × List Action :=
  ({ sp with popups := [] },
    sp.popups.flatMap (fun p =>
      (if p.s_alive then [Action.sendPopupDone p.s_surface] else [])
        ++ [Action.destroyHostSurface p.c_popup]))

/-- Result of `add_popup`; `panicNoLayer` is the `self.layer.as_ref().unwrap()`
panic when no layer surface exists. -/
inductive AddPopupResult
  | ok (space : PanelSpace) (acts : List Action)
  | panicNoLayer
  deriving DecidableEq, Repr

/-- `WrapperSpace::add_popup` for `PanelSpace`
(`wrapper_space.rs:94-203`).  `s_surface` is the embedded popup surface,
`new_c_surface` the id of the freshly created host surface, `rect_size` is
`positioner_state.rect_size`, and `s_window_geometry` / `s_input_region` are
the embedded surface's cached window geometry and input region. -/
def add_popup (sp : PanelSpace) (s_surface new_c_surface : SurfaceId)
    (positioner_version : Nat) (rect_size : Int × Int)
    (s_window_geometry : Option Rect) (s_input_region : Option (List Rect))
    (has_fractional_mgr has_viewporter : Bool) : AddPopupResult :=
  let acts0 := [Action.applyPositioner s_surface]
  if sp.popups.isEmpty then
    match sp.layer with
    | none => AddPopupResult.panicNoLayer
    | some _ =>
      let geomActs :=
        match s_window_geometry, s_input_region with
        | some g, some _ =>
          [Action.setWindowGeometry new_c_surface g.loc.1 g.loc.2
            (max g.size.1 1) (max g.size.2 1),
           Action.setInputRegion new_c_surface]
        | _, _ => []
      let viewportActs :=
        if has_viewporter then
          [Action.viewportSetDestination new_c_surface (max rect_size.1 1) (max rect_size.2 1)]
        else []
      let scaleActs :=
        if has_fractional_mgr then [] else [Action.setBufferScale new_c_surface sp.scale.floor]
      let newPopup : WrapperPopup :=
        { c_popup := new_c_surface
          s_surface := s_surface
          s_alive := true
          positioner_version := positioner_version
          state := some WrapperPopupState.WaitConfigure
          dirty := false
          has_frame := true
          rectangle := { loc := (0, 0), size := rect_size }
          geo_loc := (s_window_geometry.map (fun g => g.loc)).getD (0, 0)
          fractional_scale := has_fractional_mgr
          viewport := has_viewporter
          scale := sp.scale }
      AddPopupResult.ok { sp with popups := sp.popups ++ [newPopup] }
        (acts0 ++ geomActs ++ [Action.getPopupOnLayer new_c_surface]
          ++ viewportActs ++ scaleActs ++ [Action.commit new_c_surface])
  else
    AddPopupResult.ok { sp with popups := [] } acts0

/-- A sample panel configuration used for concrete inputs. -/
def cfg0 : CosmicPanelConfig :=
  { name := "Panel"
    output := CosmicPanelOuput.Name "DP-1"
    layer := ZwlrLayer.Top
    anchor := PanelAnchor.Top
    keyboard_interactivity := KeyboardInteractivity.None
    expand_to_edges := true
    plugins_left := none
    plugins_center := none
    plugins_right := none
    size := "M"
    background := "ThemeDefault" }

/-- A sample open popup (host surface 2, embedded surface 3). -/
def popupA : WrapperPopup :=
  { c_popup := 2
    s_surface := 3
    s_alive := true
    positioner_version := 3
    state := some (WrapperPopupState.Rectangle 0 0 10 10)
    dirty := false
    has_frame := false
    rectangle := { loc := (0, 0), size := (10, 10) }
    geo_loc := (0, 0)
    fractional_scale := false
    viewport := false
    scale := 1 }

/-- A panel space with layer surface 1 and popup `popupA` open. -/
def spOpenPopup : PanelSpace :=
  { config := cfg0
    popups := [popupA]
    layer := some 1
    layer_fractional_scale := false
    layer_viewport := false
    space := []
    mapped_outputs := []
    scale := 1
    output := none
    s_display := true
    s_hovered_surface := []
    s_focused_surface := []
    c_hovered_surface := []
    clients_left := []
    clients_center := []
    clients_right := []
    input_region := false
    dimensions := (0, 0)
    space_event := none
    is_dirty := false
    has_frame := false }

/-- Claim C1 is false on the code: raising popup B (embedded surface 9) while
popup A is open makes `add_popup` clear the popup list and return `Ok`
immediately — B is never created, so afterwards the popup list is empty
(length 0) rather than containing exactly the new popup in `WaitConfigure`. -/
theorem add_popup_second_popup_not_created :
    add_popup spOpenPopup 9 8 3 (20, 20) none none false false =
      AddPopupResult.ok { spOpenPopup with popups := [] } [Action.applyPositioner 9] ∧
    ({ spOpenPopup with popups := ([] : List WrapperPopup) } : PanelSpace).popups.length = 0 := by
  exact ⟨rfl, rfl⟩

/-- Claim C1 (amended): for every call to `add_popup` while a popup is already
open on the panel surface, all previously open popups are discarded (the popup
list is cleared, so they can receive no further configure) and the call
returns success immediately without creating the newly raised popup; after the
call the popup list is empty. -/
theorem add_popup_with_open_popup_clears (sp : PanelSpace) (s c : SurfaceId) (pv : Nat)
    (rect : Int × Int) (g : Option Rect) (ir : Option (List Rect)) (hf hv : Bool)
    (h : sp.popups ≠ []) :
    add_popup sp s c pv rect g ir hf hv =
      AddPopupResult.ok { sp with popups := [] } [Action.applyPositioner s] := by
  cases hp : sp.popups with
  | nil => exact absurd hp h
  | cons a t => simp [add_popup, hp]

/-- Witness for the amended claim C1 at a concrete input. -/
theorem add_popup_with_open_popup_clears_witness :
    spOpenPopup.popups ≠ [] ∧
      add_popup spOpenPopup 9 8 3 (20, 20) none none false false =
        AddPopupResult.ok { spOpenPopup with popups := [] } [Action.applyPositioner 9] :=
  ⟨by decide, add_popup_with_open_popup_clears spOpenPopup 9 8 3 (20, 20) none none false false
    (by decide)⟩

/-- Result of `reposition_popup` (`anyhow::Result<()>` plus the emitted
requests; the state is returned explicitly). -/
structure RepositionResult where
  res : Except String Unit
  space : PanelSpace
  acts : List Action

/-- `WrapperSpace::reposition_popup` for `PanelSpace`
(`wrapper_space.rs:205-235`).  `popup` is the embedded popup surface being
repositioned, `rect_size` is `pos_state.rect_size`.  The embedded
`send_configure` at the end is a protocol send modelled as succeeding. -/
def reposition_popup (sp : PanelSpace) (popup : SurfaceId) (rect_size : Int × Int)
    (token : Nat) : RepositionResult :=
  let acts0 := [Action.setPendingGeometry popup rect_size.1 rect_size.2]
  let acts1 :=
    match sp.popups.find? (fun wp => wp.s_surface == popup) with
    | some p =>
      [Action.setWindowGeometry p.c_popup 0 0 (max rect_size.1 1) (max rect_size.2 1),
       Action.applyPositioner popup]
        ++ (if 3 ≤ p.positioner_version then [Action.reposition p.c_popup token] else [])
        ++ [Action.commit p.c_popup]
        ++ (if 3 ≤ p.positioner_version then [Action.sendRepositioned popup token] else [])
    | none => []
  { res := Except.ok (), space := sp, acts := acts0 ++ acts1 ++ [Action.sendConfigure popup] }

/-- Claim C2: for a tracked popup, `reposition_popup` re-submits the positioner
to the host (`c_popup.reposition`) and sends a repositioned token if and only
if the host positioner protocol version is at least 3; for version below 3
neither request is issued and the call still returns Ok (a graceful no-op,
with no repositioned token reported). -/
theorem reposition_popup_version_gate (sp : PanelSpace) (popup : SurfaceId)
    (rect : Int × Int) (token : Nat) (p : WrapperPopup)
    (h : sp.popups.find? (fun wp => wp.s_surface == popup) = some p) :
    (reposition_popup sp popup rect token).res = Except.ok () ∧
    (reposition_popup sp popup rect token).space = sp ∧
    ((Action.reposition p.c_popup token ∈ (reposition_popup sp popup rect token).acts)
      ↔ 3 ≤ p.positioner_version) ∧
    ((Action.sendRepositioned popup token ∈ (reposition_popup sp popup rect token).acts)
      ↔ 3 ≤ p.positioner_version) := by
  refine ⟨rfl, rfl, ?_, ?_⟩ <;>
  · simp only [reposition_popup, h]
    by_cases hv : 3 ≤ p.positioner_version <;> simp [hv]

/-- A tracked popup whose host positioner only has protocol version 2. -/
def popupB : WrapperPopup :=
  { popupA with c_popup := 4, s_surface := 5, positioner_version := 2 }

/-- A panel space tracking only the version-2 popup `popupB`. -/
def spV2 : PanelSpace := { spOpenPopup with popups := [popupB] }

/-- Witness for claim C2: with host positioner version 3 the reposition and
the repositioned token are issued; with version 2 the call still returns Ok
and no reposition request reaches the host. -/
theorem reposition_popup_version_gate_witness :
    (Action.reposition 2 7 ∈ (reposition_popup spOpenPopup 3 (20, 30) 7).acts ∧
     Action.sendRepositioned 3 7 ∈ (reposition_popup spOpenPopup 3 (20, 30) 7).acts) ∧
    ((reposition_popup spV2 5 (20, 30) 9).res = Except.ok () ∧
     Action.reposition 4 9 ∉ (reposition_popup spV2 5 (20, 30) 9).acts ∧
     Action.sendRepositioned 5 9 ∉ (reposition_popup spV2 5 (20, 30) 9).acts) := by
  have h3 := reposition_popup_version_gate spOpenPopup 3 (20, 30) 7 popupA (by decide)
  have h2 := reposition_popup_version_gate spV2 5 (20, 30) 9 popupB (by decide)
  refine ⟨⟨h3.2.2.1.mpr (by decide), h3.2.2.2.mpr (by decide)⟩, h2.1, ?_, ?_⟩
  · exact fun hm => absurd (h2.2.2.1.mp hm) (by decide)
  · exact fun hm => absurd (h2.2.2.2.mp hm) (by decide)

/-- If a filter by the negation of `q` shortens a list, some element
satisfies `q`, and conversely. -/
theorem filter_not_length_ne_iff_any {α : Type} (q : α → Bool) (l : List α) :
    (¬ (l.filter (fun a => !q a)).length = l.length) ↔ l.any q = true := by
  induction l with
  | nil => simp
  | cons a t ih =>
    cases h : q a
    · simp only [List.filter_cons, h, Bool.not_false, eq_self_iff_true, if_true,
        List.length_cons, List.any_cons, Bool.false_or]
      rw [← ih]
      omega
    · have hle := List.length_filter_le (fun a => !q a) t
      simp only [List.filter_cons, h, Bool.not_true, Bool.false_eq_true, if_false,
        List.length_cons, List.any_cons, Bool.true_or, eq_self_iff_true, iff_true]
      omega

/-- `WrapperSpace::keyboard_leave` for `PanelSpace`
(`wrapper_space.rs:821-828`): drop every keyboard-focus entry of the seat;
if any entry was dropped, close the popups. -/
def keyboard_leave (sp : PanelSpace) (seat_name : String) : PanelSpace × List Action :=
  let kept := sp.s_focused_surface.filter (fun e => !decide (e.2 = seat_name))
  if sp.s_focused_surface.length = kept.length then
    ({ sp with s_focused_surface := kept }, [])
  else close_popups { sp with s_focused_surface := kept }

/-- `keyboard_leave` always leaves exactly the other seats' focus entries. -/
theorem keyboard_leave_filter (sp : PanelSpace) (seat : String) :
    (keyboard_leave sp seat).1.s_focused_surface
      = sp.s_focused_surface.filter (fun e => !decide (e.2 = seat)) := by
  unfold keyboard_leave
  by_cases hlen : sp.s_focused_surface.length
      = (sp.s_focused_surface.filter (fun e => !decide (e.2 = seat))).length <;>
    simp [hlen, close_popups]

/-- Claim C4: `keyboard_leave` removes every keyboard-focus entry of the seat,
and it closes the open popups (issuing a host-side destroy for each) if and
only if the seat actually held keyboard focus on some embedded surface; a
`keyboard_leave` for a seat holding no focus closes no popup and issues no
request. -/
theorem keyboard_leave_focus_and_popups (sp : PanelSpace) (seat : String) :
    (keyboard_leave sp seat).1.s_focused_surface
        = sp.s_focused_surface.filter (fun e => !decide (e.2 = seat)) ∧
    (sp.s_focused_surface.any (fun e => decide (e.2 = seat)) = true →
      (keyboard_leave sp seat).1.popups = [] ∧
      ∀ p ∈ sp.popups, Action.destroyHostSurface p.c_popup ∈ (keyboard_leave sp seat).2) ∧
    (sp.s_focused_surface.any (fun e => decide (e.2 = seat)) = false →
      (keyboard_leave sp seat).1.popups = sp.popups ∧ (keyboard_leave sp seat).2 = []) := by
  by_cases hlen : sp.s_focused_surface.length
      = (sp.s_focused_surface.filter (fun e => !decide (e.2 = seat))).length
  · have hany : sp.s_focused_surface.any (fun e => decide (e.2 = seat)) = false := by
      by_contra hc
      have : sp.s_focused_surface.any (fun e => decide (e.2 = seat)) = true := by
        revert hc; cases sp.s_focused_surface.any (fun e => decide (e.2 = seat)) <;> simp
      exact (filter_not_length_ne_iff_any (fun e => decide (e.2 = seat))
        sp.s_focused_surface).mpr this (hlen.symm)
    refine ⟨by simp [keyboard_leave, hlen], ?_, ?_⟩
    · intro hcontra; rw [hany] at hcontra; exact absurd hcontra (by simp)
    · intro _; simp [keyboard_leave, hlen]
  · have hany : sp.s_focused_surface.any (fun e => decide (e.2 = seat)) = true :=
      (filter_not_length_ne_iff_any (fun e => decide (e.2 = seat))
        sp.s_focused_surface).mp (fun he => hlen he.symm)
    refine ⟨by simp [keyboard_leave, hlen, close_popups], ?_, ?_⟩
    · intro _
      refine ⟨by simp [keyboard_leave, hlen, close_popups], ?_⟩
      intro p hp
      simp only [keyboard_leave, hlen, close_popups, if_false, List.mem_flatMap]
      exact ⟨p, hp, by cases hal : p.s_alive <;> simp⟩
    · intro hcontra; rw [hany] at hcontra; exact absurd hcontra (by simp)

/-- A panel space with an open popup and keyboard focus for seat0 on the
popup's embedded surface. -/
def spFoc : PanelSpace := { spOpenPopup with s_focused_surface := [(3, "seat0")] }

/-- Witness for claim C4: on a seat holding focus the entry is removed and the
open popup's host surface is destroyed; on a seat without focus nothing
happens. -/
theorem keyboard_leave_focus_and_popups_witness :
    ((keyboard_leave spFoc "seat0").1.s_focused_surface = [] ∧
     (keyboard_leave spFoc "seat0").1.popups = [] ∧
     Action.destroyHostSurface 2 ∈ (keyboard_leave spFoc "seat0").2) ∧
    ((keyboard_leave spFoc "seat1").1.popups = spFoc.popups ∧
     (keyboard_leave spFoc "seat1").2 = []) := by
  have h0 := keyboard_leave_focus_and_popups spFoc "seat0"
  have h1 := keyboard_leave_focus_and_popups spFoc "seat1"
  refine ⟨⟨h0.1.trans (by decide), (h0.2.1 (by decide)).1, ?_⟩, h1.2.2 (by decide)⟩
  exact (h0.2.1 (by decide)).2 popupA (by decide)

/-- `WrapperSpace::handle_press` for `PanelSpace`
(`wrapper_space.rs:691-720`).  Returns the new state, the emitted requests,
and the embedded surface the press is forwarded to (if any). -/
def handle_press (sp : PanelSpace) (seat_name : String) :
    PanelSpace × List Action × Option SurfaceId :=
  match sp.c_hovered_surface.find? (fun f => f.2 == seat_name) with
  | some prev_foc =>
    let spacts :=
      if sp.layer = some prev_foc.1 ∧ sp.popups ≠ [] then close_popups sp else (sp, [])
    (spacts.1, spacts.2,
      (spacts.1.s_hovered_surface.find? (fun h => h.seat_name == seat_name)).map
        (fun h => h.surface))
  | none =>
    let r := keyboard_leave sp seat_name
    (r.1, r.2, none)

/-- Claim C5: if the seat's hovered host surface is the panel's own layer
surface and a popup is open, `handle_press` dismisses the popups (host-side
destroys issued) and still forwards the press to the embedded surface hovered
by that seat, if any; if the seat has no hover entry, keyboard focus for the
seat is cleared (a focus-leave) and the press is not forwarded. -/
theorem handle_press_spec (sp : PanelSpace) (seat : String) :
    (∀ f, sp.c_hovered_surface.find? (fun g => g.2 == seat) = some f →
      sp.layer = some f.1 → sp.popups ≠ [] →
      (handle_press sp seat).1.popups = [] ∧
      (∀ p ∈ sp.popups, Action.destroyHostSurface p.c_popup ∈ (handle_press sp seat).2.1) ∧
      (handle_press sp seat).2.2
        = (sp.s_hovered_surface.find? (fun h => h.seat_name == seat)).map
            (fun h => h.surface)) ∧
    (sp.c_hovered_surface.find? (fun g => g.2 == seat) = none →
      (handle_press sp seat).2.2 = none ∧
      (handle_press sp seat).1.s_focused_surface
        = sp.s_focused_surface.filter (fun e => !decide (e.2 = seat))) := by
  constructor
  · intro f hf hl hp
    refine ⟨?_, ?_, ?_⟩
    · simp [handle_press, hf, hl, hp, close_popups]
    · intro p hpp
      simp only [handle_press, hf]
      split
      · simp only [close_popups, List.mem_flatMap]
        exact ⟨p, hpp, by cases hal : p.s_alive <;> simp⟩
      · next hc => exact absurd ⟨hl, hp⟩ hc
    · simp [handle_press, hf, hl, hp, close_popups]
  · intro hf
    refine ⟨by simp [handle_press, hf], ?_⟩
    have hk := keyboard_leave_filter sp seat
    simpa [handle_press, hf] using hk

/-- A panel space where seat0 hovers the panel's own layer surface while the
popup is open, and the embedded hover target is surface 3. -/
def spPress : PanelSpace :=
  { spOpenPopup with
    c_hovered_surface := [(1, "seat0")]
    s_hovered_surface := [{ surface := 3, seat_name := "seat0", c_pos := (0, 0), s_pos := (0, 0) }] }

/-- A panel space where seat0 has keyboard focus but no hover entry. -/
def spNoHover : PanelSpace := { spOpenPopup with s_focused_surface := [(3, "seat0")] }

/-- Witness for claim C5: pressing on the panel with a popup open dismisses the
popup and still forwards the press to embedded surface 3; pressing with no
hover entry clears the seat's keyboard focus and forwards nothing. -/
theorem handle_press_spec_witness :
    ((handle_press spPress "seat0").1.popups = [] ∧
     Action.destroyHostSurface 2 ∈ (handle_press spPress "seat0").2.1 ∧
     (handle_press spPress "seat0").2.2 = some 3) ∧
    ((handle_press spNoHover "seat0").2.2 = none ∧
     (handle_press spNoHover "seat0").1.s_focused_surface = []) := by
  have h1 := (handle_press_spec spPress "seat0").1 (1, "seat0") (by decide) (by decide) (by decide)
  have h2 := (handle_press_spec spNoHover "seat0").2 (by decide)
  exact ⟨⟨h1.1, h1.2.1 popupA (by decide), h1.2.2.trans (by decide)⟩,
    h2.1, h2.2.trans (by decide)⟩

/-- The in-place mutation through `self.popups.iter_mut().find(..)` in
`frame`: set `has_frame` on the first popup whose host surface matches. -/
def setFrameFirst : List WrapperPopup → SurfaceId → List WrapperPopup
  | [], _ => []
  | p :: ps, s =>
    if p.c_popup == s then { p with has_frame := true } :: ps else p :: setFrameFirst ps s

/-- `WrapperSpace::frame` for `PanelSpace` (`wrapper_space.rs:1020-1030`). -/
def frame (sp : PanelSpace) (surface : SurfaceId) : PanelSpace :=
  if some surface = sp.layer then { sp with has_frame := true }
  else { sp with popups := setFrameFirst sp.popups surface }

theorem map_frame_id_of_countP_zero (s : SurfaceId) (t : List WrapperPopup)
    (h : t.countP (fun p => p.c_popup == s) = 0) :
    t.map (fun p => if p.c_popup == s then { p with has_frame := true } else p) = t := by
  induction t with
  | nil => rfl
  | cons a t ih =>
    rw [List.countP_cons] at h
    cases ha : a.c_popup == s
    · rw [ha] at h
      simp only [Bool.false_eq_true, if_false, Nat.add_zero] at h
      have hne : ¬ ((a.c_popup == s) = true) := by simp [ha]
      simp only [List.map_cons, if_neg hne, ih h]
    · rw [ha] at h
      simp at h

theorem setFrameFirst_eq_map (s : SurfaceId) (l : List WrapperPopup)
    (h : l.countP (fun p => p.c_popup == s) ≤ 1) :
    setFrameFirst l s
      = l.map (fun p => if p.c_popup == s then { p with has_frame := true } else p) := by
  induction l with
  | nil => rfl
  | cons a t ih =>
    rw [List.countP_cons] at h
    cases ha : a.c_popup == s
    · rw [ha] at h
      simp only [Bool.false_eq_true, if_false, Nat.add_zero] at h
      have hne : ¬ ((a.c_popup == s) = true) := by simp [ha]
      simp only [setFrameFirst, if_neg hne, List.map_cons, ih h]
    · rw [ha] at h
      simp only [eq_self_iff_true, if_true] at h
      have ht : t.countP (fun p => p.c_popup == s) = 0 := by omega
      simp only [setFrameFirst, if_pos ha, List.map_cons, if_pos ha,
        map_frame_id_of_countP_zero s t ht]

/-- Claim C10: `frame` only sets the frame flag of the matching surface — the
panel's own `has_frame` when the surface is the layer surface, the unique
matching popup's `has_frame` otherwise — and leaves every other popup and
every other field of the space unchanged. -/
theorem frame_sets_only_matching (sp : PanelSpace) (surface : SurfaceId) :
    ((frame sp surface).config = sp.config ∧
     (frame sp surface).layer = sp.layer ∧
     (frame sp surface).layer_fractional_scale = sp.layer_fractional_scale ∧
     (frame sp surface).layer_viewport = sp.layer_viewport ∧
     (frame sp surface).space = sp.space ∧
     (frame sp surface).mapped_outputs = sp.mapped_outputs ∧
     (frame sp surface).scale = sp.scale ∧
     (frame sp surface).output = sp.output ∧
     (frame sp surface).s_display = sp.s_display ∧
     (frame sp surface).s_hovered_surface = sp.s_hovered_surface ∧
     (frame sp surface).s_focused_surface = sp.s_focused_surface ∧
     (frame sp surface).c_hovered_surface = sp.c_hovered_surface ∧
     (frame sp surface).clients_left = sp.clients_left ∧
     (frame sp surface).clients_center = sp.clients_center ∧
     (frame sp surface).clients_right = sp.clients_right ∧
     (frame sp surface).input_region = sp.input_region ∧
     (frame sp surface).dimensions = sp.dimensions ∧
     (frame sp surface).space_event = sp.space_event ∧
     (frame sp surface).is_dirty = sp.is_dirty) ∧
    (some surface = sp.layer →
      (frame sp surface).has_frame = true ∧ (frame sp surface).popups = sp.popups) ∧
    (¬ some surface = sp.layer →
      (frame sp surface).has_frame = sp.has_frame ∧
      (sp.popups.countP (fun p => p.c_popup == surface) = 1 →
        (frame sp surface).popups
          = sp.popups.map
              (fun p => if p.c_popup == surface then { p with has_frame := true } else p))) := by
  by_cases hl : some surface = sp.layer
  · refine ⟨by simp [frame, hl], fun _ => ⟨by simp [frame, hl], by simp [frame, hl]⟩,
      fun hc => absurd hl hc⟩
  · refine ⟨by simp [frame, hl], fun hc => absurd hc hl, fun _ => ⟨by simp [frame, hl], ?_⟩⟩
    intro hcount
    simp only [frame, hl, if_false]
    exact setFrameFirst_eq_map surface sp.popups (le_of_eq hcount)

/-- Witness for claim C10: a frame callback for the layer surface sets the
space's `has_frame`; one for the popup's host surface sets exactly that
popup's `has_frame`. -/
theorem frame_sets_only_matching_witness :
    ((frame spOpenPopup 1).has_frame = true ∧
     (frame spOpenPopup 1).popups = spOpenPopup.popups) ∧
    ((frame spOpenPopup 2).has_frame = spOpenPopup.has_frame ∧
     (frame spOpenPopup 2).popups = [{ popupA with has_frame := true }]) := by
  have hlayer := (frame_sets_only_matching spOpenPopup 1).2.1 (by decide)
  have hpopup := (frame_sets_only_matching spOpenPopup 2).2.2 (by decide)
  exact ⟨hlayer, hpopup.1, (hpopup.2 (by decide)).trans (by decide)⟩

/-- Division by the scale factor with rounding, modelling
`to_f64().to_physical(1.0).to_logical(scale).to_i32_round()` (the `XXX HACK`
in `update_pointer`); the idealized real arithmetic is carried out in `ℚ`. -/
def scaleRect (scale : Rat) (r : Rect) : Rect :=
  { loc := (round ((r.loc.1 : Rat) / scale), round ((r.loc.2 : Rat) / scale)),
    size := (round ((r.size.1 : Rat) / scale), round ((r.size.2 : Rat) / scale)) }

/-- `smithay::desktop::Space::element_under`: the topmost mapped window whose
bounding box contains the point, together with its mapped location. -/
def rectContains (r : Rect) (p : Int × Int) : Bool :=
  decide (r.loc.1 ≤ p.1) && decide (p.1 < r.loc.1 + r.size.1)
    && decide (r.loc.2 ≤ p.2) && decide (p.2 < r.loc.2 + r.size.2)

def element_under (ws : List Window) (p : Int × Int) : Option (Window × (Int × Int)) :=
  (ws.find? (fun w => rectContains w.bbox p)).map (fun w => (w, w.loc))

/-- Update the seat's keyboard-focus entry in place, or push a new one —
the `if let Some(prev_foc) = .. else push` pattern in `update_pointer`. -/
def updateOrPushFocus (l : List (SurfaceId × String)) (seat : String) (s : SurfaceId) :
    List (SurfaceId × String) :=
  match findWithIdx? (fun e => e.2 == seat) l with
  | some ie => l.set ie.1 (s, ie.2.2)
  | none => l ++ [(s, seat)]

/-- `WrapperSpace::update_pointer` for `PanelSpace`
(`wrapper_space.rs:723-819`).  Returns the new state and the resolved hover
focus. -/
def update_pointer (sp : PanelSpace) (x y : Int) (seat_name : String)
    (c_surf : SurfaceId) : PanelSpace × Option ServerPointerFocus :=
  let prev_hover := findWithIdx? (fun f => f.seat_name == seat_name) sp.s_hovered_surface
  match sp.popups.find? (fun p => p.c_popup == c_surf) with
  | some p =>
    let s_focused := updateOrPushFocus sp.s_focused_surface seat_name p.s_surface
    match prev_hover with
    | some (i, f) =>
      let f1 := { f with
        c_pos := p.rectangle.loc
        s_pos := psub p.rectangle.loc p.geo_loc
        surface := p.s_surface }
      ({ sp with s_focused_surface := s_focused,
                 s_hovered_surface := sp.s_hovered_surface.set i f1 }, some f1)
    | none =>
      let f1 : ServerPointerFocus :=
        { surface := p.s_surface
          seat_name := seat_name
          c_pos := p.rectangle.loc
          s_pos := psub p.rectangle.loc p.geo_loc }
      ({ sp with s_focused_surface := s_focused,
                 s_hovered_surface := sp.s_hovered_surface ++ [f1] }, some f1)
  | none =>
    if sp.layer = some c_surf then
      match element_under sp.space (x, y) with
      | some (w, relative_loc) =>
        let geo := scaleRect sp.scale w.bbox
        let s_focused := updateOrPushFocus sp.s_focused_surface seat_name w.surface
        match prev_hover with
        | some (i, f) =>
          let f1 := { f with s_pos := relative_loc, c_pos := geo.loc, surface := w.surface }
          ({ sp with s_focused_surface := s_focused,
                     s_hovered_surface := sp.s_hovered_surface.set i f1 }, some f1)
        | none =>
          let f1 : ServerPointerFocus :=
            { surface := w.surface
              seat_name := seat_name
              c_pos := geo.loc
              s_pos := relative_loc }
          ({ sp with s_focused_surface := s_focused,
                     s_hovered_surface := sp.s_hovered_surface ++ [f1] }, some f1)
      | none =>
        match prev_hover with
        | some (i, _) =>
          ({ sp with s_hovered_surface := swapRemove sp.s_hovered_surface i }, none)
        | none => (sp, none)
    else
      match prev_hover with
      | some (i, f) =>
        if sp.space.any (fun e => e.surface == f.surface) then
          ({ sp with s_hovered_surface := sp.s_hovered_surface.eraseIdx i }, none)
        else (sp, none)
      | none => (sp, none)

/-- A panel space where seat0's hover entry points at surface 42, which is not
among the mapped window elements (e.g. it was a popup surface). -/
def spStaleHover : PanelSpace :=
  { spOpenPopup with
    popups := []
    s_hovered_surface := [{ surface := 42, seat_name := "seat0", c_pos := (0, 0), s_pos := (0, 0) }] }

/-- Claim C3 is false on the code: pointer motion on host surface 99 (neither
a popup surface nor the layer surface 1) for seat0, which has a hover entry on
surface 42, returns no focus but does NOT remove the hover entry — a
subsequent hover query for seat0 still finds it, because surface 42 is not
among the space's mapped window elements. -/
theorem update_pointer_stale_entry_kept :
    (update_pointer spStaleHover 0 0 "seat0" 99).2 = none ∧
    (update_pointer spStaleHover 0 0 "seat0" 99).1.s_hovered_surface.any
        (fun f => f.seat_name == "seat0") = true := by
  exact ⟨rfl, rfl⟩

/-- Claim C3 (amended): pointer motion on a host surface belonging neither to
an open popup nor to the panel's layer surface yields no focus (`None`), and
the seat's existing hover entry is removed if and only if the previously
hovered embedded surface is one of the space's mapped window elements;
otherwise (e.g. the stale hover was on a popup surface) the entry is left in
place. -/
theorem update_pointer_alien_surface (sp : PanelSpace) (x y : Int) (seat : String)
    (c : SurfaceId) (i : Nat) (f : ServerPointerFocus)
    (hp : sp.popups.find? (fun p => p.c_popup == c) = none)
    (hl : ¬ sp.layer = some c)
    (hh : findWithIdx? (fun g => g.seat_name == seat) sp.s_hovered_surface = some (i, f)) :
    (update_pointer sp x y seat c).2 = none ∧
    (update_pointer sp x y seat c).1
      = (if sp.space.any (fun e => e.surface == f.surface) then
          { sp with s_hovered_surface := sp.s_hovered_surface.eraseIdx i }
        else sp) := by
  constructor <;>
  · simp only [update_pointer, hp, hh, if_neg hl]
    split <;> rfl

/-- Witness for the amended claim C3: with the previously hovered surface not
among the window elements, the entry survives; after mapping a window with
that surface, the same motion removes it. -/
theorem update_pointer_alien_surface_witness :
    ((update_pointer spStaleHover 0 0 "seat0" 99).2 = none ∧
      (update_pointer spStaleHover 0 0 "seat0" 99).1 = spStaleHover) ∧
    (update_pointer { spStaleHover with
        space := [{ surface := 42, loc := (0, 0), bbox := { loc := (0, 0), size := (10, 10) } }] }
        0 0 "seat0" 99).1.s_hovered_surface = [] := by
  have h1 := update_pointer_alien_surface spStaleHover 0 0 "seat0" 99 0
    { surface := 42, seat_name := "seat0", c_pos := (0, 0), s_pos := (0, 0) }
    (by decide) (by decide) (by decide)
  have h2 := update_pointer_alien_surface { spStaleHover with
      space := [{ surface := 42, loc := (0, 0), bbox := { loc := (0, 0), size := (10, 10) } }] }
    0 0 "seat0" 99 0
    { surface := 42, seat_name := "seat0", c_pos := (0, 0), s_pos := (0, 0) }
    (by decide) (by decide) (by decide)
  refine ⟨⟨h1.1, h1.2.trans (by decide)⟩, ?_⟩
  rw [h2.2]
  decide

/-- One workspace of a workspace group; only the bit consumed by
`maximized_outputs` is modelled: whether the workspace currently contains a
maximized toplevel. -/
structure Workspace where
  has_maximized_toplevel : Bool
  deriving DecidableEq, Repr, Inhabited

/-- `cctk::workspace::WorkspaceGroup`: the outputs the group is shown on and
its workspaces. -/
structure WorkspaceGroup where
  outputs : List Nat
  workspaces : List Workspace
  deriving DecidableEq, Repr, Inhabited

/-- The slice of `SpaceContainer` consumed by the workspace reconciler. -/
structure SpaceContainer where
  workspace_groups : List WorkspaceGroup
  outputs : List Nat
  deriving DecidableEq, Repr, Inhabited

/-- Modelled from the spec: `maximized_outputs` (defined in
`space_container/mod.rs`, which is not under the provided sources) — the set
of outputs in a "maximized" state, i.e. the outputs of every workspace group
in which any workspace has a maximized toplevel. -/
def maximized_outputs (sc : SpaceContainer) : List Nat :=
  (sc.workspace_groups.filter
    (fun g => g.workspaces.any (fun w => w.has_maximized_toplevel))).flatMap
    (fun g => g.outputs)

/-- `WorkspaceHandlerSpace::update` for `SpaceContainer`
(`space_container/workspace.rs:7-22`).  `apply_maximized` and
`apply_toplevel_changes` calls are recorded as actions. -/
def SpaceContainer.update (sc : SpaceContainer) (groups : List WorkspaceGroup) :
    SpaceContainer × List Action :=
  let pre := maximized_outputs sc
  let sc1 := { sc with workspace_groups := groups }
  let post := maximized_outputs sc1
  let acts := sc1.outputs.filterMap
    (fun o => if pre.contains o ≠ post.contains o then some (Action.applyMaximized o) else none)
  (sc1, acts ++ [Action.applyToplevelChanges])

/-- Claim C6: `update` replaces the stored workspace groups, invokes
`apply_maximized` exactly for the known outputs whose maximized status flipped
between the pre- and post-replacement computations (and for no others), and
always invokes `apply_toplevel_changes` exactly once. -/
theorem update_maximized_flips (sc : SpaceContainer) (groups : List WorkspaceGroup) :
    (SpaceContainer.update sc groups).1 = { sc with workspace_groups := groups } ∧
    (∀ o : Nat,
      Action.applyMaximized o ∈ (SpaceContainer.update sc groups).2 ↔
        (o ∈ sc.outputs ∧
          (maximized_outputs sc).contains o
            ≠ (maximized_outputs { sc with workspace_groups := groups }).contains o)) ∧
    (SpaceContainer.update sc groups).2.count Action.applyToplevelChanges = 1 := by
  refine ⟨rfl, ?_, ?_⟩
  · intro o
    constructor
    · intro hm
      simp only [SpaceContainer.update, List.mem_append, List.mem_filterMap,
        List.mem_singleton] at hm
      rcases hm with ⟨b, hb, hfb⟩ | hfalse
      · by_cases hc : (maximized_outputs sc).contains b
            ≠ (maximized_outputs { sc with workspace_groups := groups }).contains b
        · rw [if_pos hc] at hfb
          simp only [Option.some.injEq, Action.applyMaximized.injEq] at hfb
          subst hfb
          exact ⟨hb, hc⟩
        · rw [if_neg hc] at hfb; exact absurd hfb (by simp)
      · exact absurd hfalse (by simp)
    · intro ⟨ho, hflip⟩
      simp only [SpaceContainer.update, List.mem_append, List.mem_filterMap]
      exact Or.inl ⟨o, ho, by rw [if_pos hflip]⟩
  · simp only [SpaceContainer.update, List.count_append]
    have hz : (({ sc with workspace_groups := groups } : SpaceContainer).outputs.filterMap
        (fun o => if (maximized_outputs sc).contains o
            ≠ (maximized_outputs { sc with workspace_groups := groups }).contains o
          then some (Action.applyMaximized o) else none)).count Action.applyToplevelChanges
        = 0 := by
      rw [List.count_eq_zero]
      intro hmem
      rcases List.mem_filterMap.mp hmem with ⟨b, _, hfb⟩
      by_cases hc : (maximized_outputs sc).contains b
          ≠ (maximized_outputs { sc with workspace_groups := groups }).contains b
      · rw [if_pos hc] at hfb; exact absurd hfb (by simp)
      · rw [if_neg hc] at hfb; exact absurd hfb (by simp)
    rw [hz]
    rfl

/-- A concrete reconciler state: output 7 is known and currently maximized,
output 8 is known and not maximized. -/
def scSample : SpaceContainer :=
  { workspace_groups := [{ outputs := [7], workspaces := [{ has_maximized_toplevel := true }] }]
    outputs := [7, 8] }

/-- The replacement snapshot: nothing is maximized any more. -/
def groupsSample : List WorkspaceGroup :=
  [{ outputs := [7], workspaces := [{ has_maximized_toplevel := false }] }]

/-- Witness for claim C6: replacing the snapshot flips output 7 (maximized →
not), so `apply_maximized` fires for 7 and not for 8, and
`apply_toplevel_changes` runs exactly once. -/
theorem update_maximized_flips_witness :
    Action.applyMaximized 7 ∈ (SpaceContainer.update scSample groupsSample).2 ∧
    Action.applyMaximized 8 ∉ (SpaceContainer.update scSample groupsSample).2 ∧
    (SpaceContainer.update scSample groupsSample).2.count Action.applyToplevelChanges = 1 := by
  have h := update_maximized_flips scSample groupsSample
  refine ⟨(h.2.1 7).mpr (by decide), ?_, h.2.2⟩
  intro hm
  have := (h.2.1 8).mp hm
  exact absurd this (by decide)

/-- A decodable desktop-entry file with an `Exec` line, as consumed by
`spawn_clients`; `requests_wayland_display` is the presence of the
`X-HostWaylandDisplay` key, `is_notification_applet` of `X-NotificationsApplet`. -/
structure DesktopEntryFile where
  exec : String
  args : List String
  requests_wayland_display : Bool
  is_notification_applet : Bool
  deriving DecidableEq, Repr, Inhabited

/-- One candidate path of the desktop-entry scan: its file stem and, when the
file can be read, decoded, and has an `Exec` line, the decoded entry. -/
structure DesktopPath where
  stem : String
  entry : Option DesktopEntryFile
  deriving DecidableEq, Repr, Inhabited

/-- The observable launch of one applet subprocess: its environment and its
inherited-fd list, in order. -/
structure LaunchedApplet where
  id : String
  requests_wayland_display : Bool
  is_notification : Bool
  env : List (String × String)
  fds : List Nat
  deriving DecidableEq, Repr, Inhabited

/-- Fill one plugin list: each configured id receives a fresh
`get_client_sock` pair, modelled by consecutive fd numbers. -/
def allocClients : List String → Nat → List PanelClient × Nat
  | [], n => ([], n)
  | id :: rest, n =>
    let r := allocClients rest (n + 2)
    ({ id := id, client := n, socket := some (n + 1), security_context := none } :: r.1, r.2)

/-- The `env_vars` vector built by `spawn_clients`
(`wrapper_space.rs:307-322`). -/
def spawnEnvVars (sp : PanelSpace) : List (String × String) :=
  [("COSMIC_PANEL_SIZE", sp.config.size),
   ("COSMIC_PANEL_OUTPUT", (sp.output.bind (fun o => o.2.2.name)).getD ""),
   ("COSMIC_PANEL_ANCHOR", ronAnchor sp.config.anchor),
   ("COSMIC_PANEL_BACKGROUND", sp.config.background),
   ("RUST_BACKTRACE", "1")]

/-- Assemble one applet's environment and inherited-fd list
(`wrapper_space.rs:358-401`): the privileged security-context listener fd (if
requested and the manager is available) comes first and is exposed as
`X_PRIVILEGED_WAYLAND_SOCKET`; the `env_vars` follow (skipping
`WAYLAND_DISPLAY` for unprivileged applets); the client Wayland socket fd is
appended last and exposed as `WAYLAND_SOCKET`.  Returns the launch record and
the next free fd number. -/
def launch_applet (envv : List (String × String)) (has_scm : Bool) (fd : Nat)
    (id : String) (e : DesktopEntryFile) (sock : Nat) : LaunchedApplet × Nat :=
  let priv := e.requests_wayland_display && has_scm
  let env0 := if priv then [("X_PRIVILEGED_WAYLAND_SOCKET", toString fd)] else []
  let env1 := env0
    ++ envv.filter (fun kv => !(!e.requests_wayland_display && kv.1 == "WAYLAND_DISPLAY"))
    ++ [("WAYLAND_SOCKET", toString sock)]
  let fds := (if priv then [fd] else []) ++ [sock]
  ({ id := id
     requests_wayland_display := e.requests_wayland_display
     is_notification := e.is_notification_applet
     env := env1
     fds := fds },
   if priv then fd + 1 else fd)

/-- The loop state of the desktop-entry scan in `spawn_clients`: the combined
client lists (left ++ center ++ right), the indices still in `desktop_ids`,
the shared `env_vars`, the security-context-manager availability, the next
free fd, and the launches so far. -/
structure SpawnSt where
  cs : List PanelClient
  ids : List Nat
  envv : List (String × String)
  has_scm : Bool
  fd : Nat
  launched : List LaunchedApplet

/-- One iteration of the desktop-path loop in `spawn_clients`
(`wrapper_space.rs:325-588`): find the first still-unmatched applet id whose
name equals the path's stem, consume it (and its socket) even if the file then
fails to decode, and on success record the launch. -/
def spawn_step (st : SpawnSt) (p : DesktopPath) : SpawnSt :=
  match findWithIdx? (fun j =>
      match st.cs[j]? with
      | some c => c.id == p.stem
      | none => false) st.ids with
  | none => st
  | some posj =>
    let ids1 := st.ids.eraseIdx posj.1
    match st.cs[posj.2]? with
    | none => { st with ids := ids1 }
    | some client =>
      match client.socket with
      | none => { st with ids := ids1 }
      | some sock =>
        let cs1 := st.cs.set posj.2 { client with socket := none }
        match p.entry with
        | none => { st with ids := ids1, cs := cs1 }
        | some e =>
          let priv := e.requests_wayland_display && st.has_scm
          let cs2 := if priv
            then st.cs.set posj.2
              { client with socket := none, security_context := some st.fd }
            else cs1
          let ln := launch_applet st.envv st.has_scm st.fd client.id e sock
          { st with ids := ids1, cs := cs2, fd := ln.2, launched := st.launched ++ [ln.1] }

def spawn_loop : SpawnSt → List DesktopPath → SpawnSt
  | st, [] => st
  | st, p :: rest => spawn_loop (spawn_step st p) rest

/-- Result of `spawn_clients` (`anyhow::Result<()>` plus the resulting state
and the observable subprocess launches). -/
structure SpawnResult where
  res : Except String Unit
  space : PanelSpace
  launched : List LaunchedApplet
  next_fd : Nat

/-- `WrapperSpace::spawn_clients` for `PanelSpace`
(`wrapper_space.rs:241-595`).  `paths` is the desktop-entry search-path
iteration, `has_scm` whether a security-context manager is available (listener
creation is modelled as succeeding when it is), `fd0` the fd-allocation seed. -/
def spawn_clients (sp : PanelSpace) (paths : List DesktopPath) (has_scm : Bool)
    (fd0 : Nat) : SpawnResult :=
  if sp.clients_left.isEmpty && sp.clients_center.isEmpty && sp.clients_right.isEmpty then
    let aL := allocClients (sp.config.plugins_left.getD []) fd0
    let aC := allocClients (sp.config.plugins_center.getD []) aL.2
    let aR := allocClients (sp.config.plugins_right.getD []) aC.2
    let cs := aL.1 ++ aC.1 ++ aR.1
    let stF := spawn_loop
      { cs := cs, ids := List.range cs.length, envv := spawnEnvVars sp,
        has_scm := has_scm, fd := aR.2, launched := [] } paths
    { res := Except.ok ()
      space := { sp with
        clients_left := stF.cs.take aL.1.length
        clients_center := (stF.cs.drop aL.1.length).take aC.1.length
        clients_right := stF.cs.drop (aL.1.length + aC.1.length) }
      launched := stF.launched
      next_fd := stF.fd }
  else
    { res := Except.error "Clients have already been spawned!", space := sp,
      launched := [], next_fd := fd0 }

/-- Claim C9: calling `spawn_clients` while any client list is non-empty
fails with an explicit error and mutates nothing — the returned state is the
input state and no subprocess is launched. -/
theorem spawn_clients_already_spawned (sp : PanelSpace) (paths : List DesktopPath)
    (scm : Bool) (fd0 : Nat)
    (h : ¬ (sp.clients_left = [] ∧ sp.clients_center = [] ∧ sp.clients_right = [])) :
    (spawn_clients sp paths scm fd0).res = Except.error "Clients have already been spawned!" ∧
    (spawn_clients sp paths scm fd0).space = sp ∧
    (spawn_clients sp paths scm fd0).launched = [] := by
  have hb : (sp.clients_left.isEmpty && sp.clients_center.isEmpty
      && sp.clients_right.isEmpty) = false := by
    by_contra hc
    have ht : (sp.clients_left.isEmpty && sp.clients_center.isEmpty
        && sp.clients_right.isEmpty) = true := by
      revert hc
      cases sp.clients_left.isEmpty && sp.clients_center.isEmpty
        && sp.clients_right.isEmpty <;> simp
    simp only [Bool.and_eq_true, List.isEmpty_iff] at ht
    exact h ⟨ht.1.1, ht.1.2, ht.2⟩
  simp [spawn_clients, hb]

/-- A panel space on which clients were already spawned (left list occupied). -/
def spClients : PanelSpace :=
  { spOpenPopup with
    clients_left := [{ id := "clock", client := 0, socket := none, security_context := none }] }

/-- Witness for claim C9 at a concrete input. -/
theorem spawn_clients_already_spawned_witness :
    (spawn_clients spClients [] true 0).res = Except.error "Clients have already been spawned!" ∧
    (spawn_clients spClients [] true 0).space = spClients ∧
    (spawn_clients spClients [] true 0).launched = [] :=
  spawn_clients_already_spawned spClients [] true 0 (by decide)

/-- The per-launch guarantee of claim C8: the panel geometry/style variables
and the `WAYLAND_SOCKET` handle id are in the environment, and the fd list is
`[privileged, socket]` for a privileged applet (with the privileged fd also
exposed as `X_PRIVILEGED_WAYLAND_SOCKET`) and `[socket]` otherwise. -/
def launchedOk (sp : PanelSpace) (scm : Bool) (l : LaunchedApplet) : Prop :=
  ("COSMIC_PANEL_SIZE", sp.config.size) ∈ l.env ∧
  ("COSMIC_PANEL_OUTPUT", (sp.output.bind (fun o => o.2.2.name)).getD "") ∈ l.env ∧
  ("COSMIC_PANEL_ANCHOR", ronAnchor sp.config.anchor) ∈ l.env ∧
  ("COSMIC_PANEL_BACKGROUND", sp.config.background) ∈ l.env ∧
  ((l.requests_wayland_display && scm) = true →
    ∃ pr s, l.fds = [pr, s] ∧
      ("X_PRIVILEGED_WAYLAND_SOCKET", toString pr) ∈ l.env ∧
      ("WAYLAND_SOCKET", toString s) ∈ l.env) ∧
  ((l.requests_wayland_display && scm) = false →
    ∃ s, l.fds = [s] ∧ ("WAYLAND_SOCKET", toString s) ∈ l.env)

theorem filter_wayland_display (sp : PanelSpace) (b : Bool) :
    (spawnEnvVars sp).filter (fun kv => !(!b && kv.1 == "WAYLAND_DISPLAY"))
      = spawnEnvVars sp := by
  cases b <;> simp [spawnEnvVars]

theorem launch_applet_ok (sp : PanelSpace) (scm : Bool) (fd : Nat) (id : String)
    (e : DesktopEntryFile) (sock : Nat) :
    launchedOk sp scm (launch_applet (spawnEnvVars sp) scm fd id e sock).1 := by
  unfold launch_applet launchedOk
  cases hpriv : e.requests_wayland_display && scm
  · simp only [hpriv, Bool.false_eq_true, if_false, List.nil_append,
      filter_wayland_display sp e.requests_wayland_display]
    refine ⟨by simp [spawnEnvVars], by simp [spawnEnvVars], by simp [spawnEnvVars],
      by simp [spawnEnvVars], ?_, ?_⟩
    · intro hc; exact hc.elim
    · intro _; exact ⟨sock, rfl, by simp⟩
  · simp only [hpriv, if_true]
    refine ⟨by simp [spawnEnvVars], by simp [spawnEnvVars], by simp [spawnEnvVars],
      by simp [spawnEnvVars], ?_, ?_⟩
    · intro _
      exact ⟨fd, sock, by simp [filter_wayland_display sp e.requests_wayland_display],
        by simp, by simp⟩
    · intro hc; exact absurd hc (by simp)

theorem spawn_step_launched (sp : PanelSpace) (scm : Bool) (st : SpawnSt) (p : DesktopPath)
    (he : st.envv = spawnEnvVars sp) (hs : st.has_scm = scm)
    (hinv : ∀ l ∈ st.launched, launchedOk sp scm l) :
    (spawn_step st p).envv = spawnEnvVars sp ∧ (spawn_step st p).has_scm = scm ∧
    ∀ l ∈ (spawn_step st p).launched, launchedOk sp scm l := by
  unfold spawn_step
  split
  · exact ⟨he, hs, hinv⟩
  · split
    · exact ⟨he, hs, hinv⟩
    · split
      · exact ⟨he, hs, hinv⟩
      · split
        · exact ⟨he, hs, hinv⟩
        · refine ⟨he, hs, ?_⟩
          intro l hl
          rcases List.mem_append.mp hl with hold | hnew
          · exact hinv l hold
          · rw [List.mem_singleton] at hnew
            subst hnew
            rw [he, hs]
            exact launch_applet_ok sp scm st.fd _ _ _

theorem spawn_loop_launched (sp : PanelSpace) (scm : Bool) (paths : List DesktopPath)
    (st : SpawnSt) (he : st.envv = spawnEnvVars sp) (hs : st.has_scm = scm)
    (hinv : ∀ l ∈ st.launched, launchedOk sp scm l) :
    ∀ l ∈ (spawn_loop st paths).launched, launchedOk sp scm l := by
  induction paths generalizing st with
  | nil => exact hinv
  | cons p rest ih =>
    have hstep := spawn_step_launched sp scm st p he hs hinv
    exact ih (spawn_step st p) hstep.1 hstep.2.1 hstep.2.2

/-- Claim C8: every applet subprocess launched by `spawn_clients` (with the
security-context manager available) receives `COSMIC_PANEL_SIZE`,
`COSMIC_PANEL_OUTPUT`, `COSMIC_PANEL_ANCHOR`, `COSMIC_PANEL_BACKGROUND` and
the transport socket's handle id as `WAYLAND_SOCKET` in its environment; an
applet requesting direct privileged host access additionally gets the
privileged listener handle (`X_PRIVILEGED_WAYLAND_SOCKET`), whose fd precedes
the client Wayland socket fd in the inherited-handle list. -/
theorem spawn_clients_env_and_fds (sp : PanelSpace) (paths : List DesktopPath) (fd0 : Nat) :
    ∀ l ∈ (spawn_clients sp paths true fd0).launched, launchedOk sp true l := by
  unfold spawn_clients
  cases hb : sp.clients_left.isEmpty && sp.clients_center.isEmpty
      && sp.clients_right.isEmpty
  · simp only [hb, Bool.false_eq_true, if_false]
    intro l hl
    exact absurd hl (by simp)
  · simp only [hb, if_true]
    exact spawn_loop_launched sp true paths _ rfl rfl (by intro l hl; exact absurd hl (by simp))

/-- A panel space configured with a single left applet, before spawning. -/
def spSpawn : PanelSpace :=
  { spOpenPopup with
    popups := []
    config := { cfg0 with plugins_left := some ["clock"] } }

/-- A desktop-entry scan finding the applet; it requests direct host access. -/
def pathsW : List DesktopPath :=
  [{ stem := "clock"
     entry := some
       { exec := "cosmic-clock", args := [], requests_wayland_display := true,
         is_notification_applet := false } }]

/-- The single launch performed by `spawn_clients spSpawn pathsW true 10`. -/
def lW : LaunchedApplet :=
  ((spawn_clients spSpawn pathsW true 10).launched).getD 0
    { id := "", requests_wayland_display := false, is_notification := false,
      env := [], fds := [] }

/-- Witness for claim C8: the launched privileged applet has the panel
variables and `WAYLAND_SOCKET` in its environment and its fd list is
`[privileged, socket]`. -/
theorem spawn_clients_env_and_fds_witness :
    lW ∈ (spawn_clients spSpawn pathsW true 10).launched ∧
    ("COSMIC_PANEL_SIZE", spSpawn.config.size) ∈ lW.env ∧
    (∃ pr s, lW.fds = [pr, s] ∧
      ("X_PRIVILEGED_WAYLAND_SOCKET", toString pr) ∈ lW.env ∧
      ("WAYLAND_SOCKET", toString s) ∈ lW.env) := by
  have hmem : lW ∈ (spawn_clients spSpawn pathsW true 10).launched := by decide
  have h := spawn_clients_env_and_fds spSpawn pathsW 10 lW hmem
  exact ⟨hmem, h.1, h.2.2.2.2.1 (by decide)⟩

/-- Modelled from the spec: `constrain_dim` (defined in `panel_space.rs`,
which is not under the provided sources) clamps a proposed size to the panel's
configured constraints; the spec fixes only that the content box is
constrained to a minimum of 1 by 1. -/
def constrain_dim (_sp : PanelSpace) (d : Int × Int) : Int × Int :=
  (max d.1 1, max d.2 1)

/-- The output-selector rejection condition of `new_output`
(`wrapper_space.rs:911-931`): with a full output triple, an `Active` selector
or a mismatching `Name` selector rejects it; without a full triple, any
non-`Active` selector rejects the call. -/
def output_mismatch (cfg : CosmicPanelOuput) (c s : Option Nat) (i : Option OutputInfo) : Bool :=
  match c, s, i with
  | some _, some _, some info =>
    match cfg with
    | CosmicPanelOuput.Active => true
    | CosmicPanelOuput.Name n => !(info.name == some n)
    | CosmicPanelOuput.All => false
  | _, _, _ =>
    match cfg with
    | CosmicPanelOuput.Active => false
    | _ => true

/-- Whether the configured layer value is unrecognized. -/
def isUnknownLayer : ZwlrLayer → Bool
  | ZwlrLayer.Unknown _ => true
  | _ => false

/-- Result of `new_output`: the `anyhow::Result<()>`, the resulting state, the
requests issued, whether a panic was reached, and the applet launches of the
trailing `spawn_clients` call. -/
structure NewOutputResult where
  res : Except String Unit
  space : PanelSpace
  acts : List Action
  panicked : Bool
  launched : List LaunchedApplet

/-- The tail of `new_output` after the selector checks
(`wrapper_space.rs:932-1007`): translate the layer, create and configure the
layer surface, commit, install the `WaitConfigure` space event, then spawn the
clients (whose own failure is only logged). -/
def new_output_rest (sp : PanelSpace) (acts0 : List Action)
    (out_triple : Option (Nat × Nat × OutputInfo)) (new_surface : SurfaceId)
    (has_fractional_mgr has_viewporter : Bool) (paths : List DesktopPath)
    (has_scm : Bool) (fd0 : Nat) : NewOutputResult :=
  let dims := constrain_dim sp (0, 0)
  match layerFromZwlr sp.config.layer with
  | none =>
    { res := Except.error "Invalid layer", space := sp, acts := acts0,
      panicked := false, launched := [] }
  | some _ =>
    let acts1 := acts0
      ++ [Action.createLayerSurface new_surface,
          Action.setKeyboardInteractivity new_surface,
          Action.setSize new_surface dims.1 dims.2,
          Action.setAnchor new_surface]
    let spacts :=
      if sp.config.expand_to_edges then (sp, acts1)
      else ({ sp with input_region := true }, acts1 ++ [Action.setInputRegion new_surface])
    let acts2 := spacts.2 ++ [Action.commit new_surface]
    let sp2 := { spacts.1 with
      output := out_triple
      layer := some new_surface
      layer_fractional_scale := has_fractional_mgr
      layer_viewport := has_viewporter
      dimensions := dims
      space_event := some (SpaceEvent.WaitConfigure true dims.1 dims.2)
      is_dirty := true }
    if sp2.s_display then
      let r := spawn_clients sp2 paths has_scm fd0
      { res := Except.ok (), space := r.space, acts := acts2,
        panicked := false, launched := r.launched }
    else
      { res := Except.ok (), space := sp2, acts := acts2,
        panicked := true, launched := [] }

/-- `WrapperSpace::new_output` for `PanelSpace`
(`wrapper_space.rs:896-1008`).  `new_surface` is the id of the host surface
that would be created for the layer surface. -/
def new_output (sp : PanelSpace) (c_output s_output : Option Nat)
    (output_info : Option OutputInfo) (new_surface : SurfaceId)
    (has_fractional_mgr has_viewporter : Bool) (paths : List DesktopPath)
    (has_scm : Bool) (fd0 : Nat) : NewOutputResult :=
  if sp.output.isSome then
    { res := Except.error "output already setup for this panel", space := sp,
      acts := [], panicked := false, launched := [] }
  else
    let out_triple : Option (Nat × Nat × OutputInfo) :=
      match c_output, s_output, output_info with
      | some c, some s, some i => some (c, s, i)
      | _, _, _ => none
    match c_output, s_output, output_info with
    | some _, some s, some info =>
      let sp1 := { sp with mapped_outputs := sp.mapped_outputs ++ [(s, info.location)] }
      let acts1 := [Action.mapOutput s info.location]
      match sp.config.output with
      | CosmicPanelOuput.Active =>
        { res := Except.error "output does not match config", space := sp1,
          acts := acts1, panicked := false, launched := [] }
      | CosmicPanelOuput.Name n =>
        if info.name == some n then
          if sp.config.output = CosmicPanelOuput.Active ∧ sp1.layer.isSome then
            { res := Except.ok (), space := sp1, acts := acts1,
              panicked := false, launched := [] }
          else
            new_output_rest sp1 acts1 out_triple new_surface has_fractional_mgr
              has_viewporter paths has_scm fd0
        else
          { res := Except.error "output does not match config", space := sp1,
            acts := acts1, panicked := false, launched := [] }
      | CosmicPanelOuput.All =>
        if sp.config.output = CosmicPanelOuput.Active ∧ sp1.layer.isSome then
          { res := Except.ok (), space := sp1, acts := acts1,
            panicked := false, launched := [] }
        else
          new_output_rest sp1 acts1 out_triple new_surface has_fractional_mgr
            has_viewporter paths has_scm fd0
    | _, _, _ =>
      if sp.config.output = CosmicPanelOuput.Active then
        new_output_rest sp [] out_triple new_surface has_fractional_mgr has_viewporter
          paths has_scm fd0
      else
        { res := Except.error "output does not match config", space := sp,
          acts := [], panicked := false, launched := [] }

/-- Claim C7: a `new_output` call on a panel whose output is already bound,
or whose output does not satisfy the configured output selector, or whose
configured layer value is unrecognized, returns an explicit error (it does not
panic) and creates no layer surface — the stored layer handle is unchanged
and no layer-surface creation request is issued. -/
theorem new_output_config_errors (sp : PanelSpace) (c s : Option Nat)
    (i : Option OutputInfo) (ns : SurfaceId) (hfm hvp : Bool)
    (paths : List DesktopPath) (scm : Bool) (fd0 : Nat)
    (h : sp.output.isSome = true ∨ output_mismatch sp.config.output c s i = true
      ∨ isUnknownLayer sp.config.layer = true) :
    (∃ msg, (new_output sp c s i ns hfm hvp paths scm fd0).res = Except.error msg) ∧
    (new_output sp c s i ns hfm hvp paths scm fd0).panicked = false ∧
    (new_output sp c s i ns hfm hvp paths scm fd0).space.layer = sp.layer ∧
    Action.createLayerSurface ns ∉ (new_output sp c s i ns hfm hvp paths scm fd0).acts := by
  by_cases hos : sp.output.isSome = true
  · refine ⟨⟨"output already setup for this panel", ?_⟩, ?_, ?_, ?_⟩ <;>
      simp [new_output, hos]
  · have hosf : sp.output.isSome = false := by
      revert hos; cases sp.output.isSome <;> simp
    have hmm : output_mismatch sp.config.output c s i = true
        ∨ isUnknownLayer sp.config.layer = true := by
      rcases h with h | h | h
      · exact absurd h hos
      · exact Or.inl h
      · exact Or.inr h
    rcases hc : c with _ | cv <;> rcases hs : s with _ | sv <;> rcases hi : i with _ | iv <;>
      subst hc <;> subst hs <;> subst hi <;>
      rcases hcfg : sp.config.output with _ | _ | n
    all_goals first
      | ( -- the selector accepts (Active without a triple, or All): only the layer can fail
         rcases hmm with hm | hl
         · rw [hcfg] at hm; simp [output_mismatch] at hm
         · rcases hzl : sp.config.layer with _ | _ | _ | _ | v <;>
             rw [hzl] at hl <;> simp [isUnknownLayer] at hl
           refine ⟨⟨"Invalid layer", ?_⟩, ?_, ?_, ?_⟩ <;>
             simp [new_output, hosf, hcfg, new_output_rest, layerFromZwlr, hzl])
      | ( -- the selector itself rejects the call
         refine ⟨⟨"output does not match config", ?_⟩, ?_, ?_, ?_⟩ <;>
           simp [new_output, hosf, hcfg]
         done)
      | ( -- full triple with a Name selector
         by_cases hn : (iv.name == some n) = true
         · rcases hmm with hm | hl
           · rw [hcfg] at hm; simp [output_mismatch, hn] at hm
           · rcases hzl : sp.config.layer with _ | _ | _ | _ | v <;>
               rw [hzl] at hl <;> simp [isUnknownLayer] at hl
             refine ⟨⟨"Invalid layer", ?_⟩, ?_, ?_, ?_⟩ <;>
               simp [new_output, hosf, hcfg, hn, new_output_rest, layerFromZwlr, hzl]
         · have hnf : (iv.name == some n) = false := by
             revert hn; cases iv.name == some n <;> simp
           refine ⟨⟨"output does not match config", ?_⟩, ?_, ?_, ?_⟩ <;>
             simp [new_output, hosf, hcfg, hnf])

/-- A panel configured for output `DP-1` but offered output `HDMI-1`. -/
def infoHdmi : OutputInfo := { name := some "HDMI-1", location := (0, 0) }

/-- Witness for claim C7: binding a second output fails explicitly; offering a
non-matching output fails explicitly; an unrecognized layer value fails
explicitly — none creates a layer surface. -/
theorem new_output_config_errors_witness :
    (∃ msg, (new_output { spOpenPopup with output := some (0, 0, infoHdmi) }
        (some 5) (some 6) (some infoHdmi) 7 false false [] false 0).res
      = Except.error msg) ∧
    ((∃ msg, (new_output spOpenPopup (some 5) (some 6) (some infoHdmi)
        7 false false [] false 0).res = Except.error msg) ∧
     Action.createLayerSurface 7
      ∉ (new_output spOpenPopup (some 5) (some 6) (some infoHdmi) 7 false false [] false 0).acts) ∧
    ((∃ msg, (new_output { spOpenPopup with
          config := { cfg0 with layer := ZwlrLayer.Unknown 9 }, layer := none }
        (some 5) (some 6) (some { name := some "DP-1", location := (0, 0) })
        7 false false [] false 0).res = Except.error msg) ∧
     (new_output { spOpenPopup with
          config := { cfg0 with layer := ZwlrLayer.Unknown 9 }, layer := none }
        (some 5) (some 6) (some { name := some "DP-1", location := (0, 0) })
        7 false false [] false 0).space.layer = none) := by
  have h1 := new_output_config_errors { spOpenPopup with output := some (0, 0, infoHdmi) }
    (some 5) (some 6) (some infoHdmi) 7 false false [] false 0 (Or.inl (by decide))
  have h2 := new_output_config_errors spOpenPopup
    (some 5) (some 6) (some infoHdmi) 7 false false [] false 0 (Or.inr (Or.inl (by decide)))
  have h3 := new_output_config_errors { spOpenPopup with
      config := { cfg0 with layer := ZwlrLayer.Unknown 9 }, layer := none }
    (some 5) (some 6) (some { name := some "DP-1", location := (0, 0) })
    7 false false [] false 0 (Or.inr (Or.inr (by decide)))
  exact ⟨h1.1, ⟨h2.1, h2.2.2.2⟩, h3.1, h3.2.2.1⟩

end CosmicPanel
